import Mathlib

/-!
Shallow embedding of `mvplayer` (PyQt5 + libvlc multi-video player).

Each display slot owns a `PlayerWindow` (vlc instance + player + Qt window),
a `ControlPanel` (buttons and sliders) and shares the main window's refresh
timer.  We flatten one slot's reachable state into the `Slot` structure and
translate each action method of the source into a function
`Slot → Slot × List Ev`, where the returned list records the externally
visible calls (vlc transport calls, window show/hide, timer start/stop) in
the order the source issues them.

External collaborators are modelled as follows:
* the vlc media player is a record `VlcPlayer`; `play` succeeds iff a media
  is attached to the player and the environment flag `playFails` is off
  (libvlc's `media_player_play` returns -1 when it cannot start playback,
  in particular when no media is set);
* normalized positions are rationals (the source only ever forms
  `value / 1000.0` and `position * 1000`, which are exact here);
* physical displays are a list of rectangles passed as an argument where
  the source queries the desktop;
* the file dialog's result is a `String` argument, `""` meaning cancelled.
-/

namespace MVPlayer

/-- A vlc media object: its identity (creation order within the slot's vlc
instance) and the path it was created from. -/
structure Media where
  id : Nat
  path : String
deriving DecidableEq, Repr

/-- Layout content margins, as returned by `contentsMargins()`. -/
structure Margins where
  left : Int
  top : Int
  right : Int
  bottom : Int
deriving DecidableEq, Repr

/-- A screen geometry rectangle (`screenGeometry`). -/
structure Rect where
  x : Int
  y : Int
  w : Int
  h : Int
deriving DecidableEq, Repr, Inhabited

/-- Visibility of the Qt player window. -/
inductive Visibility where
  | hidden
  | normal
  | fullscreen
deriving DecidableEq, Repr

/-- State of the slot's native vlc media player. -/
structure VlcPlayer where
  media : Option Media
  playing : Bool
  volume : Int
  position : ℚ
deriving DecidableEq, Repr

/-- Qt window-style flag `Qt.Window`. -/
def qtWindow : Nat := 0x1

/-- Qt window-style flag `Qt.FramelessWindowHint`. -/
def qtFramelessWindowHint : Nat := 0x800

/-- Externally visible calls an action performs, in order. -/
inductive Ev where
  | timerStop
  | timerStart
  | vlcSetPosition (q : ℚ)
  | vlcPlayOk
  | vlcPlayFail
  | vlcPause
  | vlcStop
  | vlcSetMedia (m : Option Nat)
  | vlcMediaNew (id : Nat) (path : String)
  | vlcAudioSetVolume (v : Int)
  | wndShow
  | wndHide
  | wndShowFullScreen
  | wndShowNormal
  | setLabel (s : String)
deriving DecidableEq, Repr

/-- All state reachable from one display slot: the `PlayerWindow` fields
(`__slots__` of the source class), the Qt window it is, its vlc player,
the owning `ControlPanel`'s widgets, and the main window's shared timer. -/
structure Slot where
  -- PlayerWindow attributes
  media : Option Media
  volume : Int
  wnd_x : Option Int
  wnd_y : Option Int
  wnd_w : Option Int
  wnd_h : Option Int
  wnd_flags : Option Nat
  ly_margins : Option Margins
  is_fullscreen : Bool
  -- Qt window state of the PlayerWindow widget
  x : Int
  y : Int
  width : Int
  height : Int
  windowFlags : Nat
  margins : Margins
  visibility : Visibility
  windowTitle : String
  -- vlc instance / player
  player : VlcPlayer
  nextMediaId : Nat
  -- ControlPanel widgets
  screen_num : Nat
  play_pause_text : String
  volume_slider : Int
  position_slider : Int
  -- MainWindow shared refresh timer
  timerRunning : Bool
deriving DecidableEq, Repr

/-- Truncation toward zero, the meaning of Python's `int()` on a number. -/
def pyInt (q : ℚ) : Int :=
  if 0 ≤ q then ⌊q⌋ else ⌈q⌉

/-- `set_volume_action(self, volume)`: cache the volume on the slot; if a
media is open, apply it to the native player. -/
def set_volume_action (s : Slot) (volume : Int) : Slot × List Ev :=
  let s := { s with volume := volume }
  if s.media = none then (s, [])
  else ({ s with player.volume := s.volume }, [Ev.vlcAudioSetVolume s.volume])

/-- `QSlider.setValue` on the volume slider: clamp into `[0, 100]`; if the
value changes, Qt emits `valueChanged`, which the panel connects to
`set_volume_action`. -/
def volume_slider_setValue (s : Slot) (v : Int) : Slot × List Ev :=
  let v := max 0 (min 100 v)
  if s.volume_slider = v then (s, [])
  else set_volume_action { s with volume_slider := v } v

/-- `QSlider.setValue` on the position slider: clamp into `[0, 1000]`.
(`sliderMoved`/`sliderPressed`, the signals wired to `set_position_action`,
are only emitted by user interaction, not by `setValue`.) -/
def position_slider_setValue (s : Slot) (v : Int) : Slot :=
  { s with position_slider := max 0 (min 1000 v) }

/-- `set_position_action(self)`: if a media is open, stop the shared timer,
read the position slider and seek to `value / 1000.0`, restart the timer. -/
def set_position_action (s : Slot) : Slot × List Ev :=
  if s.media = none then (s, [])
  else
    let s := { s with timerRunning := false }
    let pos : Int := s.position_slider
    let s := { s with player.position := (pos : ℚ) / 1000 }
    let s := { s with timerRunning := true }
    (s, [Ev.timerStop, Ev.vlcSetPosition ((pos : ℚ) / 1000), Ev.timerStart])

/-- `stop_action(self)`: stop the native transport and reset the play/pause
button label to "Play". -/
def stop_action (s : Slot) : Slot × List Ev :=
  ({ s with player.playing := false, play_pause_text := "Play" },
   [Ev.vlcStop, Ev.setLabel "Play"])

/-- `release_media(self)`: if a media is open, stop transport, detach the
media from the player (`set_media(None)`) and drop the handle. -/
def release_media (s : Slot) : Slot × List Ev :=
  if s.media = none then (s, [])
  else
    let (s, t) := stop_action s
    let s := { s with player.media := none }
    let s := { s with media := none }
    (s, t ++ [Ev.vlcSetMedia none])

/-- `open_action(self)` with the file dialog's result passed in as
`filename` (`""` = cancelled) and the media metadata title oracle `meta`:
release any current media, create and attach a fresh one, parse it, push
the cached volume to the volume slider, set the window title and show the
window. -/
def open_action (s : Slot) (filename : String) (meta : String → String) :
    Slot × List Ev :=
  if filename = "" then (s, [])
  else
    let r1 := release_media s
    let s := r1.1
    let m : Media := ⟨s.nextMediaId, filename⟩
    let s := { s with media := some m, nextMediaId := s.nextMediaId + 1 }
    let s := { s with player.media := some m }
    let r2 := volume_slider_setValue s s.volume
    let s := { r2.1 with windowTitle := meta filename }
    let s := { s with visibility :=
      if s.visibility = Visibility.hidden then Visibility.normal
      else s.visibility }
    (s, r1.2 ++ [Ev.vlcMediaNew m.id filename, Ev.vlcSetMedia (some m.id)]
          ++ r2.2 ++ [Ev.wndShow])

/-- `play_pause_action(self)`: if the native player is playing, pause and
label "Play"; otherwise request play (it fails, returning -1, when no media
is attached or the environment `playFails`), and on success show the window
if hidden, label "Pause" and start the shared timer. -/
def play_pause_action (s : Slot) (playFails : Bool) : Slot × List Ev :=
  if s.player.playing then
    ({ s with player.playing := false, play_pause_text := "Play" },
     [Ev.vlcPause, Ev.setLabel "Play"])
  else if s.player.media = none ∨ playFails then
    (s, [Ev.vlcPlayFail])
  else
    let s := { s with player.playing := true }
    let (s, tShow) :=
      if s.visibility = Visibility.hidden then
        ({ s with visibility := Visibility.normal }, [Ev.wndShow])
      else (s, [])
    let s := { s with play_pause_text := "Pause" }
    let s := { s with timerRunning := true }
    (s, [Ev.vlcPlayOk] ++ tShow ++ [Ev.setLabel "Pause", Ev.timerStart])

/-- `toggle_fullscreen_action(self)` with the desktop's screen list passed
in: no-op without a media; otherwise hide, then either save geometry /
style / margins and cover the target screen frameless and fullscreen, or
restore everything saved and show normal. -/
def toggle_fullscreen_action (s : Slot) (screens : List Rect) :
    Slot × List Ev :=
  if s.media = none then (s, [])
  else
    let s := { s with visibility := Visibility.hidden }
    if ¬ s.is_fullscreen then
      let s := { s with
        wnd_x := some s.x
        wnd_y := some s.y
        wnd_w := some s.width
        wnd_h := some s.height
        wnd_flags := some s.windowFlags
        ly_margins := some s.margins }
      let screen_num := s.screen_num
      let screen_count := screens.length
      let screenres :=
        screens.getD (if screen_num < screen_count then screen_num else 0)
          default
      let s := { s with
        windowFlags := qtWindow ||| qtFramelessWindowHint
        margins := ⟨0, 0, 0, 0⟩ }
      let s := { s with x := screenres.x, y := screenres.y }
      let s := { s with width := screenres.w, height := screenres.h }
      let s := { s with visibility := Visibility.fullscreen }
      let s := { s with is_fullscreen := true }
      (s, [Ev.wndHide, Ev.wndShowFullScreen])
    else
      let s := { s with windowFlags := s.wnd_flags.getD s.windowFlags }
      let s := { s with margins :=
        match s.ly_margins with
        | some m => ⟨m.left, m.top, m.right, m.bottom⟩
        | none => s.margins }
      let s := { s with x := s.wnd_x.getD s.x, y := s.wnd_y.getD s.y }
      let s := { s with
        width := s.wnd_w.getD s.width
        height := s.wnd_h.getD s.height }
      let s := { s with visibility := Visibility.normal }
      let s := { s with is_fullscreen := false }
      (s, [Ev.wndHide, Ev.wndShowNormal])

/-- `close_action(self)`: no-op without a media; otherwise leave fullscreen
first if needed, hide the window, and release the media. -/
def close_action (s : Slot) (screens : List Rect) : Slot × List Ev :=
  if s.media = none then (s, [])
  else
    let (s, t1) :=
      if s.is_fullscreen then toggle_fullscreen_action s screens
      else (s, ([] : List Ev))
    let s := { s with visibility := Visibility.hidden }
    let (s, t2) := release_media s
    (s, t1 ++ [Ev.wndHide] ++ t2)

/-- `ControlPanel.update_ui(self)`: one periodic refresh tick for one
panel.  With a media, show `int(get_position() * 1000)` on the position
slider and "Pause"/"Play" from `is_playing()`; without one, show 0 and
"Play". -/
def update_ui (s : Slot) : Slot :=
  let (pos, text) :=
    if s.media ≠ none then
      (pyInt (s.player.position * 1000),
       if s.player.playing then "Pause" else "Play")
    else
      ((0 : Int), "Play")
  let s := position_slider_setValue s pos
  { s with play_pause_text := text }

/-- The slot state right after construction (`PlayerWindow.__init__` and
`ControlPanel.create_ui` for panel ordinal `n`). -/
def initSlot (n : Nat) : Slot where
  media := none
  volume := 100
  wnd_x := none
  wnd_y := none
  wnd_w := none
  wnd_h := none
  wnd_flags := none
  ly_margins := none
  is_fullscreen := false
  x := 0
  y := 0
  width := 640
  height := 480
  windowFlags := 0
  margins := ⟨9, 9, 9, 9⟩
  visibility := Visibility.hidden
  windowTitle := ""
  player := ⟨none, false, 100, 0⟩
  nextMediaId := 0
  screen_num := n
  play_pause_text := "Play"
  volume_slider := 100
  position_slider := 0
  timerRunning := false

/-- Well-formedness a reachable slot satisfies: the window's media handle
and the player's attached media agree, media ids created so far are below
the instance's counter, and a player with no media is not playing. -/
def Slot.WF (s : Slot) : Prop :=
  s.player.media = s.media ∧
  (∀ m, s.media = some m → m.id < s.nextMediaId) ∧
  (s.media = none → s.player.playing = false)

instance (s : Slot) : Decidable s.WF := by
  unfold Slot.WF
  infer_instance

/-- The fullscreen-transition frame: fields an operation leaves alone iff
it never touches the fullscreen flag or the saved windowed geometry. -/
def FrameEq (a b : Slot) : Prop :=
  a.is_fullscreen = b.is_fullscreen ∧
  a.wnd_x = b.wnd_x ∧ a.wnd_y = b.wnd_y ∧
  a.wnd_w = b.wnd_w ∧ a.wnd_h = b.wnd_h ∧
  a.wnd_flags = b.wnd_flags ∧ a.ly_margins = b.ly_margins

/-- A concrete media handle for witnesses. -/
def mediaA : Media := ⟨0, "a.mp4"⟩

/-- A concrete windowed slot with a media open, for witnesses. -/
def slotA : Slot :=
  { initSlot 1 with
    media := some mediaA
    player := ⟨some mediaA, false, 100, 0⟩
    nextMediaId := 1
    x := 30
    y := 40
    width := 800
    height := 600
    windowFlags := 0x2
    visibility := Visibility.normal }

/-- A concrete two-display desktop, for witnesses. -/
def screensA : List Rect := [⟨0, 0, 1920, 1080⟩, ⟨1920, 0, 1280, 1024⟩]

/-- A concrete fullscreen slot: `slotA` after entering fullscreen. -/
def slotFS : Slot := (toggle_fullscreen_action slotA screensA).1

/-- A concrete slot whose native position makes truncation and rounding
disagree: `999/2000 * 1000 = 499.5`. -/
def slotHalf : Slot :=
  { slotA with player := ⟨some mediaA, false, 100, (999 : ℚ) / 2000⟩ }

/-- C1: for a slot with a media handle in the windowed state, toggling
fullscreen twice restores position, size, window-style flags and layout
content margins to their exact values before the first toggle. -/
theorem toggle_fullscreen_twice_restores (s : Slot) (screens : List Rect)
    (m : Media) (hm : s.media = some m) (hfs : s.is_fullscreen = false) :
    ((toggle_fullscreen_action
        (toggle_fullscreen_action s screens).1 screens).1).x = s.x ∧
    ((toggle_fullscreen_action
        (toggle_fullscreen_action s screens).1 screens).1).y = s.y ∧
    ((toggle_fullscreen_action
        (toggle_fullscreen_action s screens).1 screens).1).width = s.width ∧
    ((toggle_fullscreen_action
        (toggle_fullscreen_action s screens).1 screens).1).height
        = s.height ∧
    ((toggle_fullscreen_action
        (toggle_fullscreen_action s screens).1 screens).1).windowFlags
        = s.windowFlags ∧
    ((toggle_fullscreen_action
        (toggle_fullscreen_action s screens).1 screens).1).margins
        = s.margins := by
  simp [toggle_fullscreen_action, hm, hfs]

/-- Witness for C1 at `slotA` on the two-display desktop. -/
theorem toggle_fullscreen_twice_restores_witness :
    slotA.media = some mediaA ∧ slotA.is_fullscreen = false ∧
    (((toggle_fullscreen_action
        (toggle_fullscreen_action slotA screensA).1 screensA).1).x
        = slotA.x ∧
     ((toggle_fullscreen_action
        (toggle_fullscreen_action slotA screensA).1 screensA).1).y
        = slotA.y ∧
     ((toggle_fullscreen_action
        (toggle_fullscreen_action slotA screensA).1 screensA).1).width
        = slotA.width ∧
     ((toggle_fullscreen_action
        (toggle_fullscreen_action slotA screensA).1 screensA).1).height
        = slotA.height ∧
     ((toggle_fullscreen_action
        (toggle_fullscreen_action slotA screensA).1 screensA).1).windowFlags
        = slotA.windowFlags ∧
     ((toggle_fullscreen_action
        (toggle_fullscreen_action slotA screensA).1 screensA).1).margins
        = slotA.margins) :=
  ⟨rfl, rfl, toggle_fullscreen_twice_restores slotA screensA mediaA rfl rfl⟩

/-- C2: entering fullscreen from the windowed state saves position, size,
window flags and content margins, covers exactly the geometry of the
display indexed by the slot's screen number when that index is below the
display count and display 0 otherwise, sets the borderless top-level
style, zeroes the margins, shows fullscreen and sets the fullscreen
flag. -/
theorem toggle_fullscreen_enter (s : Slot) (screens : List Rect)
    (m : Media) (hm : s.media = some m) (hfs : s.is_fullscreen = false) :
    (toggle_fullscreen_action s screens).1.wnd_x = some s.x ∧
    (toggle_fullscreen_action s screens).1.wnd_y = some s.y ∧
    (toggle_fullscreen_action s screens).1.wnd_w = some s.width ∧
    (toggle_fullscreen_action s screens).1.wnd_h = some s.height ∧
    (toggle_fullscreen_action s screens).1.wnd_flags
      = some s.windowFlags ∧
    (toggle_fullscreen_action s screens).1.ly_margins = some s.margins ∧
    (toggle_fullscreen_action s screens).1.x
      = (screens.getD
          (if s.screen_num < screens.length then s.screen_num else 0)
          default).x ∧
    (toggle_fullscreen_action s screens).1.y
      = (screens.getD
          (if s.screen_num < screens.length then s.screen_num else 0)
          default).y ∧
    (toggle_fullscreen_action s screens).1.width
      = (screens.getD
          (if s.screen_num < screens.length then s.screen_num else 0)
          default).w ∧
    (toggle_fullscreen_action s screens).1.height
      = (screens.getD
          (if s.screen_num < screens.length then s.screen_num else 0)
          default).h ∧
    (toggle_fullscreen_action s screens).1.windowFlags
      = (qtWindow ||| qtFramelessWindowHint) ∧
    (toggle_fullscreen_action s screens).1.margins = ⟨0, 0, 0, 0⟩ ∧
    (toggle_fullscreen_action s screens).1.visibility
      = Visibility.fullscreen ∧
    (toggle_fullscreen_action s screens).1.is_fullscreen = true := by
  simp [toggle_fullscreen_action, hm, hfs]

/-- Witness for C2 at `slotA`: screen number 1 exists among two displays,
so fullscreen covers the second display's geometry. -/
theorem toggle_fullscreen_enter_witness :
    slotA.media = some mediaA ∧ slotA.is_fullscreen = false ∧
    (toggle_fullscreen_action slotA screensA).1.x = 1920 ∧
    (toggle_fullscreen_action slotA screensA).1.width = 1280 ∧
    (toggle_fullscreen_action slotA screensA).1.wnd_x = some 30 := by
  have h := toggle_fullscreen_enter slotA screensA mediaA rfl rfl
  exact ⟨rfl, rfl, by simpa [screensA, slotA, initSlot] using h.2.2.2.2.2.2.1,
    by simpa [screensA, slotA, initSlot] using h.2.2.2.2.2.2.2.2.1,
    by simpa [slotA, initSlot] using h.1⟩

/-- C3: when the native player reports it is not playing and the engine's
play request fails, `play_pause_action` leaves the whole slot state (in
particular the label, the window visibility and the timer) unchanged and
never starts the shared timer. -/
theorem play_pause_fail_no_change (s : Slot)
    (h : s.player.playing = false) :
    (play_pause_action s true).1 = s ∧
    Ev.timerStart ∉ (play_pause_action s true).2 ∧
    Ev.wndShow ∉ (play_pause_action s true).2 ∧
    (play_pause_action s true).1.play_pause_text = s.play_pause_text := by
  simp [play_pause_action, h]

/-- Witness for C3 at `slotA`, which is not playing. -/
theorem play_pause_fail_no_change_witness :
    slotA.player.playing = false ∧
    ((play_pause_action slotA true).1 = slotA ∧
     Ev.timerStart ∉ (play_pause_action slotA true).2 ∧
     Ev.wndShow ∉ (play_pause_action slotA true).2 ∧
     (play_pause_action slotA true).1.play_pause_text
       = slotA.play_pause_text) :=
  ⟨rfl, play_pause_fail_no_change slotA rfl⟩

/-- C9: for a well-formed slot with no media handle, `play_pause_action`
is a no-op for either engine outcome flag: the state is unchanged, the
window is not shown and the shared timer is not started.  (The source has
no explicit media guard here; the play request fails because no media is
attached to the player.) -/
theorem play_pause_no_media_noop (s : Slot) (pf : Bool)
    (hm : s.media = none) (hw : s.WF) :
    (play_pause_action s pf).1 = s ∧
    Ev.timerStart ∉ (play_pause_action s pf).2 ∧
    Ev.wndShow ∉ (play_pause_action s pf).2 ∧
    Ev.setLabel "Pause" ∉ (play_pause_action s pf).2 := by
  obtain ⟨hpm, -, hpl⟩ := hw
  rw [hm] at hpm hpl
  simp [play_pause_action, hpm, hpl rfl]

/-- Witness for C9 at the freshly constructed slot 1. -/
theorem play_pause_no_media_noop_witness :
    (initSlot 1).media = none ∧ (initSlot 1).WF ∧
    ((play_pause_action (initSlot 1) false).1 = initSlot 1 ∧
     Ev.timerStart ∉ (play_pause_action (initSlot 1) false).2 ∧
     Ev.wndShow ∉ (play_pause_action (initSlot 1) false).2 ∧
     Ev.setLabel "Pause" ∉ (play_pause_action (initSlot 1) false).2) :=
  ⟨rfl, by decide,
   play_pause_no_media_noop (initSlot 1) false rfl (by decide)⟩

/-- C6: `set_volume_action v` always caches `v` on the slot; with no media
it makes no native call and changes nothing else, with a media it applies
`v` to the native player. -/
theorem set_volume_spec (s : Slot) (v : Int)
    (h0 : 0 ≤ v) (h1 : v ≤ 100) :
    (set_volume_action s v).1.volume = v ∧
    (s.media = none →
      set_volume_action s v = ({ s with volume := v }, [])) ∧
    (s.media ≠ none →
      (set_volume_action s v).1.player.volume = v ∧
      (set_volume_action s v).2 = [Ev.vlcAudioSetVolume v]) := by
  by_cases hm : s.media = none <;> simp [set_volume_action, hm]

/-- Witness for C6: volume 37 at the no-media slot 1 and at `slotA`. -/
theorem set_volume_spec_witness :
    ((0 : Int) ≤ 37 ∧ (37 : Int) ≤ 100) ∧
    (set_volume_action (initSlot 1) 37).1.volume = 37 ∧
    set_volume_action (initSlot 1) 37
      = ({ initSlot 1 with volume := 37 }, []) ∧
    (set_volume_action slotA 37).1.player.volume = 37 ∧
    (set_volume_action slotA 37).2 = [Ev.vlcAudioSetVolume 37] := by
  have h1 := set_volume_spec (initSlot 1) 37 (by decide) (by decide)
  have h2 := set_volume_spec slotA 37 (by decide) (by decide)
  exact ⟨⟨by decide, by decide⟩, h1.1, h1.2.1 rfl,
    (h2.2.2 (by decide)).1, (h2.2.2 (by decide)).2⟩

/-- C7: `set_position_action` is a no-op without a media; with one it
stops the shared timer, seeks the native player to exactly
`slider / 1000`, and restarts the timer, in that order. -/
theorem set_position_spec (s : Slot) :
    (s.media = none → set_position_action s = (s, [])) ∧
    (s.media ≠ none →
      (set_position_action s).1.player.position
        = (s.position_slider : ℚ) / 1000 ∧
      (set_position_action s).1.timerRunning = true ∧
      (set_position_action s).2
        = [Ev.timerStop,
           Ev.vlcSetPosition ((s.position_slider : ℚ) / 1000),
           Ev.timerStart]) := by
  by_cases hm : s.media = none <;> simp [set_position_action, hm]

/-- Witness for C7: on `slotA` with the position slider at 500 the seek
target is exactly `1/2`, and the no-media slot 1 is untouched. -/
theorem set_position_spec_witness :
    set_position_action (initSlot 1) = (initSlot 1, []) ∧
    (set_position_action
      { slotA with position_slider := 500 }).1.player.position
        = (1 : ℚ) / 2 ∧
    (set_position_action { slotA with position_slider := 500 }).2
      = [Ev.timerStop, Ev.vlcSetPosition ((1 : ℚ) / 2), Ev.timerStart] := by
  have h1 := (set_position_spec (initSlot 1)).1 rfl
  have h2 := (set_position_spec { slotA with position_slider := 500 }).2
    (by decide)
  refine ⟨h1, ?_, ?_⟩
  · rw [h2.1]; norm_num [slotA]
  · rw [h2.2.2]; norm_num [slotA]

/-- C4: `close_action` is a no-op without a media; with one it performs
the fullscreen-to-windowed transition first when fullscreen, then hides
the window, then releases the media (stop, detach, drop), leaving a
hidden, windowed slot with no media attached anywhere. -/
theorem close_action_spec (s : Slot) (screens : List Rect) :
    (s.media = none → close_action s screens = (s, [])) ∧
    (s.media ≠ none →
      (close_action s screens).1.media = none ∧
      (close_action s screens).1.player.media = none ∧
      (close_action s screens).1.player.playing = false ∧
      (close_action s screens).1.visibility = Visibility.hidden ∧
      (close_action s screens).1.is_fullscreen = false ∧
      (close_action s screens).2
        = (if s.is_fullscreen then [Ev.wndHide, Ev.wndShowNormal] else [])
          ++ [Ev.wndHide]
          ++ [Ev.vlcStop, Ev.setLabel "Play", Ev.vlcSetMedia none]) := by
  by_cases hm : s.media = none
  · simp [close_action, hm]
  · by_cases hfs : s.is_fullscreen <;>
      simp [close_action, toggle_fullscreen_action, release_media,
        stop_action, hm, hfs]

/-- Witness for C4 at the no-media slot 1 and at the fullscreen slot. -/
theorem close_action_spec_witness :
    close_action (initSlot 1) screensA = (initSlot 1, []) ∧
    (close_action slotFS screensA).1.media = none ∧
    (close_action slotFS screensA).1.is_fullscreen = false ∧
    (close_action slotFS screensA).2
      = [Ev.wndHide, Ev.wndShowNormal, Ev.wndHide,
         Ev.vlcStop, Ev.setLabel "Play", Ev.vlcSetMedia none] := by
  have h1 := (close_action_spec (initSlot 1) screensA).1 rfl
  have h2 := (close_action_spec slotFS screensA).2 (by decide)
  refine ⟨h1, h2.1, h2.2.2.2.2.1, ?_⟩
  rw [h2.2.2.2.2.2]
  decide

/-- Helper: `QSlider.setValue` on the volume slider never touches the
window's media handle. -/
theorem volume_slider_setValue_media (s : Slot) (v : Int) :
    (volume_slider_setValue s v).1.media = s.media := by
  by_cases h : s.volume_slider = max 0 (min 100 v) <;>
    simp [volume_slider_setValue, set_volume_action, h] <;>
    by_cases hm : s.media = none <;> simp [hm]

/-- Helper: `QSlider.setValue` on the volume slider never touches the
player's attached media. -/
theorem volume_slider_setValue_player_media (s : Slot) (v : Int) :
    (volume_slider_setValue s v).1.player.media = s.player.media := by
  by_cases h : s.volume_slider = max 0 (min 100 v) <;>
    simp [volume_slider_setValue, set_volume_action, h] <;>
    by_cases hm : s.media = none <;> simp [hm]

/-- Helper: `QSlider.setValue` on the volume slider never touches the
fullscreen flag or the saved windowed geometry. -/
theorem volume_slider_setValue_frame (s : Slot) (v : Int) :
    FrameEq (volume_slider_setValue s v).1 s := by
  unfold FrameEq
  by_cases h : s.volume_slider = max 0 (min 100 v) <;>
    simp [volume_slider_setValue, set_volume_action, h] <;>
    by_cases hm : s.media = none <;> simp [hm]

/-- C5: `open_action` makes no state change on a cancelled dialog; on a
non-empty path it first fully releases any current media (stop, detach,
drop — visible as the release calls preceding the media creation in the
trace) and then creates a fresh media, distinct from the previous one,
bound to the slot's player. -/
theorem open_action_spec (s : Slot) (meta : String → String)
    (hw : s.WF) :
    (open_action s "" meta = (s, [])) ∧
    (∀ filename, filename ≠ "" →
      (open_action s filename meta).1.media
        = some ⟨s.nextMediaId, filename⟩ ∧
      (open_action s filename meta).1.player.media
        = some ⟨s.nextMediaId, filename⟩ ∧
      (∀ m0, s.media = some m0 →
        (open_action s filename meta).1.media ≠ some m0) ∧
      (s.media ≠ none →
        (open_action s filename meta).2.take 5
          = [Ev.vlcStop, Ev.setLabel "Play", Ev.vlcSetMedia none,
             Ev.vlcMediaNew s.nextMediaId filename,
             Ev.vlcSetMedia (some s.nextMediaId)])) := by
  obtain ⟨hpm, hid, -⟩ := hw
  refine ⟨by simp [open_action], ?_⟩
  intro filename hf
  have hmed : (open_action s filename meta).1.media
      = some ⟨s.nextMediaId, filename⟩ := by
    by_cases hm : s.media = none <;>
      simp [open_action, release_media, stop_action, hf, hm,
        volume_slider_setValue_media]
  refine ⟨hmed, ?_, ?_, ?_⟩
  · by_cases hm : s.media = none <;>
      simp [open_action, release_media, stop_action, hf, hm,
        volume_slider_setValue_player_media]
  · intro m0 hm0 hcontra
    rw [hmed] at hcontra
    have hlt := hid m0 hm0
    have heq : (⟨s.nextMediaId, filename⟩ : Media) = m0 := by
      simpa using hcontra
    rw [← heq] at hlt
    simp at hlt
  · intro hm
    simp [open_action, release_media, stop_action, hf, hm, List.take]

/-- Witness for C5 at `slotA` opening "b.mp4": the fresh handle has id 1,
distinct from the released `mediaA` (id 0), and the release calls come
first in the trace. -/
theorem open_action_spec_witness :
    slotA.WF ∧
    (open_action slotA "" (fun _ => "t") = (slotA, [])) ∧
    (open_action slotA "b.mp4" (fun _ => "t")).1.media
      = some ⟨1, "b.mp4"⟩ ∧
    (open_action slotA "b.mp4" (fun _ => "t")).1.player.media
      = some ⟨1, "b.mp4"⟩ ∧
    (open_action slotA "b.mp4" (fun _ => "t")).1.media ≠ some mediaA ∧
    (open_action slotA "b.mp4" (fun _ => "t")).2.take 5
      = [Ev.vlcStop, Ev.setLabel "Play", Ev.vlcSetMedia none,
         Ev.vlcMediaNew 1 "b.mp4", Ev.vlcSetMedia (some 1)] := by
  have h := open_action_spec slotA (fun _ => "t") (by decide)
  have h2 := h.2 "b.mp4" (by decide)
  exact ⟨by decide, h.1, h2.1, h2.2.1, h2.2.2.1 mediaA rfl,
    h2.2.2.2 (by decide)⟩

/-- C8 counterexample: with the native position at `999/2000` the panel
displays `int(499.5) = 499`, not `round(499.5) = 500`. -/
theorem update_ui_round_cex :
    (update_ui slotHalf).position_slider
      ≠ round (slotHalf.player.position * 1000) := by
  have hpos : slotHalf.player.position = (999 : ℚ) / 2000 := rfl
  have h1 : pyInt ((999 : ℚ) / 2000 * 1000) = 499 := by
    unfold pyInt
    rw [if_pos (by norm_num)]
    norm_num
  have h2 : round ((999 : ℚ) / 2000 * 1000) = 500 := by
    rw [round_eq]
    norm_num
  have h3 : (update_ui slotHalf).position_slider = 499 := by
    simp [update_ui, position_slider_setValue, slotHalf, slotA, initSlot,
      mediaA, h1]
  rw [h3, hpos, h2]
  decide

/-- C8 amended: on a refresh tick a panel with no media shows position 0
and label "Play"; a panel with a media shows position
`int(native_position * 1000)` — truncation toward zero, not rounding —
and label "Pause" iff the native player reports playing. -/
theorem update_ui_spec (s : Slot) (h0 : 0 ≤ s.player.position)
    (h1 : s.player.position ≤ 1) :
    (s.media = none → (update_ui s).position_slider = 0 ∧
      (update_ui s).play_pause_text = "Play") ∧
    (s.media ≠ none →
      (update_ui s).position_slider = pyInt (s.player.position * 1000) ∧
      (update_ui s).play_pause_text
        = (if s.player.playing then "Pause" else "Play")) := by
  constructor
  · intro hm
    simp [update_ui, position_slider_setValue, hm]
  · intro hm
    have hq0 : (0 : ℚ) ≤ s.player.position * 1000 := by positivity
    have hq1 : s.player.position * 1000 ≤ 1000 := by nlinarith
    have hp : pyInt (s.player.position * 1000)
        = ⌊s.player.position * 1000⌋ := by
      simp [pyInt, hq0]
    have hl0 : (0 : ℤ) ≤ ⌊s.player.position * 1000⌋ :=
      Int.floor_nonneg.mpr hq0
    have hl1 : ⌊s.player.position * 1000⌋ ≤ 1000 := by
      have := Int.floor_le_floor hq1
      simpa using this
    simp [update_ui, position_slider_setValue, hm, hp,
      min_eq_right hl1, max_eq_right, hl0]

/-- Witness for C8's amended theorem at `slotHalf` (truncation shows 499)
and at the no-media slot 1. -/
theorem update_ui_spec_witness :
    ((0 : ℚ) ≤ slotHalf.player.position ∧ slotHalf.player.position ≤ 1) ∧
    (update_ui slotHalf).position_slider
      = pyInt (slotHalf.player.position * 1000) ∧
    (update_ui slotHalf).play_pause_text = "Play" ∧
    (update_ui (initSlot 1)).position_slider = 0 ∧
    (update_ui (initSlot 1)).play_pause_text = "Play" := by
  have h := (update_ui_spec slotHalf (by norm_num [slotHalf, slotA])
    (by norm_num [slotHalf, slotA])).2 (by decide)
  have h2 := (update_ui_spec (initSlot 1) (by norm_num [initSlot])
    (by norm_num [initSlot])).1 rfl
  refine ⟨⟨by norm_num [slotHalf, slotA], by norm_num [slotHalf, slotA]⟩,
    h.1, ?_, h2.1, h2.2⟩
  rw [h.2]
  decide

/-- C10: the transport operations open, play/pause, stop, set-volume and
set-position never modify the fullscreen flag or any of the saved
windowed-geometry fields. -/
theorem transport_ops_frame (s : Slot) (v : Int) (filename : String)
    (meta : String → String) (pf : Bool) :
    FrameEq (open_action s filename meta).1 s ∧
    FrameEq (play_pause_action s pf).1 s ∧
    FrameEq (stop_action s).1 s ∧
    FrameEq (set_volume_action s v).1 s ∧
    FrameEq (set_position_action s).1 s := by
  have hvs := volume_slider_setValue_frame
  unfold FrameEq at hvs ⊢
  refine ⟨?_, ?_, ?_, ?_, ?_⟩ <;>
    by_cases hm : s.media = none <;>
    by_cases hp : s.player.playing <;>
    by_cases hf : filename = "" <;>
      simp [open_action, play_pause_action, stop_action,
        set_volume_action, set_position_action, release_media,
        hm, hp, hf, hvs] <;>
      split_ifs <;> simp_all [hvs]

end MVPlayer
